import Mathlib

/-!
Verification development for the pup.ai multi-provider AI response pipeline.

The definitions below are a shallow embedding of the TypeScript sources:
the conversation context manager (services/ai/context.ts and its later
revision), the response cache (AIResponseCache), the prompt template
manager (services/ai/prompts.ts), the web-search / grounding classifiers
(utils/webSearch.ts, providers/gemini.ts), the OpenAI provider adapter
revisions (providers/openai.ts) and the AIService orchestrator.

Modelling conventions:
- JS strings are Lean Strings (all inputs of interest are ASCII, so
  UTF-16 length and codepoint length agree);
- JS timestamps (Date.now() milliseconds) are Int, so that differences
  like now - msg.timestamp behave as in JS;
- undefined / missing optional fields are Option.none;
- the JS falsy-coalescing idiom x || d on strings is jsOr (empty string
  and undefined both fall through to the default);
- arr.slice(-k) is jsSliceLast, including the slice(-0) = whole-array
  corner of JS;
- sha256 fingerprints are modelled as the (injective) identity on the
  serialized key data, so equal key data means equal cache key by
  definition, and distinct key data is modelled as a distinct key.
-/

namespace PupAI

/-- Roles a context message can carry (types/ai.ts ContextMessage.role). -/
inductive Role where
  | user
  | assistant
  | system
deriving DecidableEq, Repr

/-- ContextMessage of types/ai.ts: role, content, timestamp, optional userId. -/
structure ContextMessage where
  role : Role
  content : String
  timestamp : Int
  userId : Option String
deriving DecidableEq, Repr

/-- Metadata snapshot: the Record of string-valued entries attached to a
context (systemPrompt, channelContext and so on), modelled as an
association list standing for its JSON serialization. -/
def Metadata : Type := List (String × String)

instance : DecidableEq Metadata := by
  unfold Metadata
  infer_instance

/-- AIContext of types/ai.ts. -/
structure AIContext where
  messages : List ContextMessage
  channel : String
  threadTs : Option String
  userId : String
  isDirectMessage : Bool
  metadata : Option Metadata
deriving DecidableEq

/-- Token usage estimate carried on a response (types/ai.ts). -/
structure Usage where
  promptTokens : Nat
  completionTokens : Nat
  totalTokens : Nat
deriving DecidableEq, Repr

/-- AIResponse of types/ai.ts. -/
structure AIResponse where
  content : String
  model : String
  provider : String
  usage : Option Usage
  cached : Option Bool
  timestamp : Int
deriving DecidableEq, Repr

/-- JS idiom s || d for strings: an undefined or empty string falls
through to the default. -/
def jsOr (o : Option String) (d : String) : String :=
  match o with
  | none => d
  | some s => if s = "" then d else s

/-- JS arr.slice(-k) for a natural k: the last k elements, except that
slice(-0) is slice(0), the whole array. -/
def jsSliceLast (k : Nat) (l : List α) : List α :=
  if k = 0 then l else l.drop (l.length - k)

/-- Drop a prefix: chopPrefix w l is some rest when l = w ++ rest. -/
def chopPrefix : List Char → List Char → Option (List Char)
  | [], l => some l
  | _ :: _, [] => none
  | c :: cs, d :: ds => if c = d then chopPrefix cs ds else none

/-- Lower-case a character list (models toLowerCase / the i regex flag on
the ASCII inputs at hand). -/
def lc (l : List Char) : List Char := l.map Char.toLower

/-- Case-insensitive substring test, the meaning of patt.test(s) for a
regex that is a plain literal with the i flag. -/
def containsSubAux (w : List Char) : List Char → Bool
  | [] => (chopPrefix w []).isSome
  | c :: cs => (chopPrefix w (c :: cs)).isSome || containsSubAux w cs

/-- Case-insensitive substring containment on strings. -/
def containsCI (s w : String) : Bool :=
  containsSubAux (lc w.data) (lc s.data)

/-- Case-sensitive substring containment, the meaning of
s.includes(w). -/
def containsStr (s w : String) : Bool :=
  containsSubAux w.data s.data

/-- AIResponseCache.shouldSkipCache default patterns: each /…/i.test is a
case-insensitive substring test (the source patterns carry no word
boundaries). -/
def defaultSkipPatterns : List String :=
  ["what time", "current date", "today", "now", "latest", "recent",
   "weather", "random"]

/-- Default skip predicate of AIResponseCache.shouldSkipCache: some
pattern matches the prompt. -/
def defaultSkip (prompt : String) : Bool :=
  defaultSkipPatterns.any fun w => containsCI prompt w

/-- CacheOptions of types/ai.ts: ttl, maxSize and the optional custom
skip predicate. -/
structure CacheOptions where
  ttl : Nat
  maxSize : Nat
  skipCache : Option (String → AIContext → Bool)

/-- AIResponseCache.shouldSkipCache: the custom predicate when provided,
else the default pattern list. -/
def shouldSkipCache (o : CacheOptions) (prompt : String) (ctx : AIContext) : Bool :=
  match o.skipCache with
  | some f => f prompt ctx
  | none => defaultSkip prompt

/-- The data AIResponseCache.generateCacheKey serializes and hashes: the
prompt, channel, DM flag, the last three messages truncated to role plus
the first 100 characters of content, and the metadata snapshot. The
sha256 digest is modelled as the identity on this data. -/
structure CacheKeyData where
  prompt : String
  channel : String
  isDirectMessage : Bool
  recentMessages : List (Role × String)
  metadata : Option Metadata
deriving DecidableEq

/-- AIResponseCache.generateCacheKey: context.messages.slice(-3), each
projected to role and content.substring(0, 100). -/
def generateCacheKey (prompt : String) (ctx : AIContext) : CacheKeyData :=
  { prompt := prompt
    channel := ctx.channel
    isDirectMessage := ctx.isDirectMessage
    recentMessages :=
      (jsSliceLast 3 ctx.messages).map fun m => (m.role, String.mk (m.content.data.take 100))
    metadata := ctx.metadata }

/-- The cache store: the LRU map underlying AIResponseCache, abstracted
to an association list from key data to stored responses (TTL and LRU
eviction do not matter for the properties below, which hold for every
store state). -/
def CacheState : Type := List (CacheKeyData × AIResponse)

/-- Lookup in the store. -/
def cacheLookup (st : CacheState) (k : CacheKeyData) : Option AIResponse :=
  (st.find? fun p => p.1 = k).map fun p => p.2

/-- AIResponseCache.get: a skip-eligible prompt is always a miss;
otherwise look up the fingerprint, annotating a hit as cached. -/
def cacheGet (o : CacheOptions) (st : CacheState) (prompt : String)
    (ctx : AIContext) : Option AIResponse :=
  if shouldSkipCache o prompt ctx then none
  else
    match cacheLookup st (generateCacheKey prompt ctx) with
    | some r => some { r with cached := some true }
    | none => none

/-- AIResponseCache.set: a no-op for a skip-eligible prompt; otherwise
store under the fingerprint. -/
def cacheSet (o : CacheOptions) (st : CacheState) (prompt : String)
    (ctx : AIContext) (resp : AIResponse) : CacheState :=
  if shouldSkipCache o prompt ctx then st
  else (generateCacheKey prompt ctx, resp) :: st.filter fun p => p.1 ≠ generateCacheKey prompt ctx

/-- ContextManagerConfig of services/ai/context.ts: maxMessages and the
optional maxTokens budget. -/
structure ContextManagerConfig where
  maxMessages : Nat
  maxTokens : Option Nat

/-- The per-message token estimate of ContextManager.trimByTokenCount:
Math.ceil(message.content.length / 4). -/
def estTokens (m : ContextMessage) : Nat :=
  (m.content.length + 3) / 4

/-- The newest-to-oldest accumulation loop of trimByTokenCount, run on
the reversed message list: keep a message while the running total stays
within the budget, stop (break) at the first message that does not fit. -/
def tokenKeep (budget : Nat) (total : Nat) : List ContextMessage → List ContextMessage
  | [] => []
  | m :: rest =>
    if total + estTokens m ≤ budget then m :: tokenKeep budget (total + estTokens m) rest
    else []

/-- ContextManager.trimByTokenCount: iterate from the newest message
backwards, unshifting each message that fits the budget, and break at
the first that does not; the kept tail stays in original order. -/
def trimByTokenCount (budget : Nat) (ms : List ContextMessage) : List ContextMessage :=
  (tokenKeep budget 0 ms.reverse).reverse

/-- Count-bound step of ContextManager.trimContext: slice to the last
maxMessages when over the bound. -/
def trimToMax (maxMessages : Nat) (ms : List ContextMessage) : List ContextMessage :=
  if ms.length > maxMessages then jsSliceLast maxMessages ms else ms

/-- ContextManager.trimContext: the count-bound step, then, when a
maxTokens budget is configured (JS truthiness: an absent or zero budget
skips the step), the token-estimate trim. -/
def trimContext (cfg : ContextManagerConfig) (ms : List ContextMessage) : List ContextMessage :=
  let ms1 := trimToMax cfg.maxMessages ms
  match cfg.maxTokens with
  | some budget => if budget = 0 then ms1 else trimByTokenCount budget ms1
  | none => ms1

/-- ContextManager.addMessage restricted to the message list of one
context: push the new message, then trim. -/
def addMessage (cfg : ContextManagerConfig) (ms : List ContextMessage)
    (m : ContextMessage) : List ContextMessage :=
  trimContext cfg (ms ++ [m])

/-- Total estimated token cost of a message list. -/
def estCost (ms : List ContextMessage) : Nat :=
  (ms.map estTokens).sum

/-- The state the later ContextManager revision keeps: the per
(channel, user) contexts and the channel-wide message lists, each
modelled as an association list mirroring the Map. -/
structure CMState where
  contexts : List (String × AIContext)
  channelContexts : List (String × List ContextMessage)

/-- Staleness test of cleanupOldContexts on one context: the context is
deleted when it has no last message or its last message is older than
maxAge (now - lastMessage.timestamp > maxAge). -/
def ctxIsStale (now maxAge : Int) (ctx : AIContext) : Bool :=
  match ctx.messages.getLast? with
  | none => true
  | some lm => now - lm.timestamp > maxAge

/-- Per-context body of cleanupOldContexts: a stale context is dropped;
a surviving one keeps only messages younger than maxAge
(now - msg.timestamp < maxAge), capped to the last 30. -/
def cleanupCtx (now maxAge : Int) (ctx : AIContext) : Option AIContext :=
  if ctxIsStale now maxAge ctx then none
  else
    some { ctx with
      messages := jsSliceLast 30 (ctx.messages.filter fun m => now - m.timestamp < maxAge) }

/-- Channel-side body of cleanupOldContexts: filter to young messages,
cap at the last 30, and delete the channel when nothing remains (the
source writes back only when the list shrank, which is extensionally
the same map). -/
def cleanupChannel (now maxAge : Int) (msgs : List ContextMessage) : Option (List ContextMessage) :=
  let limited := jsSliceLast 30 (msgs.filter fun m => now - m.timestamp < maxAge)
  if limited.isEmpty then none else some limited

/-- ContextManager.cleanupOldContexts of the later revision (default
maxAge 12 hours): sweep both maps. -/
def cleanupOldContexts (now maxAge : Int) (st : CMState) : CMState :=
  { contexts := st.contexts.filterMap fun p => (cleanupCtx now maxAge p.2).map fun c => (p.1, c)
    channelContexts :=
      st.channelContexts.filterMap fun p => (cleanupChannel now maxAge p.2).map fun l => (p.1, l) }

/-- Word characters for the regex word boundary ASCII class [A-Za-z0-9_]. -/
def wordChar (c : Char) : Bool :=
  (('a' ≤ c && c ≤ 'z') || ('A' ≤ c && c ≤ 'Z') || ('0' ≤ c && c ≤ '9') || c = '_')

/-- A word boundary holds before a match at the start of the string or
after a non-word character. -/
def okStart (prev : Option Char) : Bool :=
  match prev with
  | none => true
  | some c => !wordChar c

/-- A word boundary holds after a match at the end of the string or
before a non-word character. -/
def okEnd (rest : List Char) : Bool :=
  match rest with
  | [] => true
  | c :: _ => !wordChar c

/-- All ways one of the alternatives can match at the current position:
for each alternative that is a prefix of the suffix and satisfies the
requested word boundaries (bs before, be after), return the last
character of the alternative and the remaining text. -/
def altMatchesHere (alts : List (List Char)) (prev : Option Char) (suffix : List Char)
    (bs be : Bool) : List (Option Char × List Char) :=
  alts.filterMap fun w =>
    match chopPrefix w suffix with
    | some rest =>
      if (!bs || okStart prev) && (!be || okEnd rest) then some (w.getLast?, rest)
      else none
    | none => none

/-- patt.test for a regex of the shape X(a1|a2|…)Y with X, Y empty or a
word boundary: scan every position for an alternative match. -/
def testAltAux (alts : List (List Char)) (bs be : Bool) :
    Option Char → List Char → Bool
  | prev, [] => !(altMatchesHere alts prev [] bs be).isEmpty
  | prev, c :: cs =>
    !(altMatchesHere alts prev (c :: cs) bs be).isEmpty || testAltAux alts bs be (some c) cs

/-- Scan with the second alternative group after a .* gap: the dot does
not cross a newline, so the scan stops at one; prev carries the
character before the current position for boundary checks. -/
def testGapThenAlt (alts : List (List Char)) (bs be : Bool) :
    Option Char → List Char → Bool
  | prev, [] => !(altMatchesHere alts prev [] bs be).isEmpty
  | prev, c :: cs =>
    !(altMatchesHere alts prev (c :: cs) bs be).isEmpty ||
      (!(c = '\n' || c = '\r') && testGapThenAlt alts bs be (some c) cs)

/-- patt.test for a regex of the shape X(A…)Y.*U(B…)V with the listed
boundary flags: some position matches the first group and the second
group matches after a newline-free gap. -/
def testSeqAux (alts1 : List (List Char)) (bs1 be1 : Bool)
    (alts2 : List (List Char)) (bs2 be2 : Bool) :
    Option Char → List Char → Bool
  | prev, [] =>
    (altMatchesHere alts1 prev [] bs1 be1).any fun pr => testGapThenAlt alts2 bs2 be2 pr.1 pr.2
  | prev, c :: cs =>
    ((altMatchesHere alts1 prev (c :: cs) bs1 be1).any fun pr =>
        testGapThenAlt alts2 bs2 be2 pr.1 pr.2) ||
      testSeqAux alts1 bs1 be1 alts2 bs2 be2 (some c) cs

/-- String-level, case-insensitive entry point for a single-group
pattern (the i flag lower-cases both sides; patterns without the flag
contain only digits, which lower-casing fixes). -/
def testAlt (s : String) (alts : List String) (bs be : Bool) : Bool :=
  testAltAux (alts.map fun w => lc w.data) bs be none (lc s.data)

/-- String-level entry point for a two-group pattern with a .* gap. -/
def testSeq (s : String) (alts1 : List String) (bs1 be1 : Bool)
    (alts2 : List String) (bs2 be2 : Bool) : Bool :=
  testSeqAux (alts1.map fun w => lc w.data) bs1 be1
    (alts2.map fun w => lc w.data) bs2 be2 none (lc s.data)

/-- String-level entry point for an anchored pattern ^(A…).*U(B…)V: the
first group must match at position 0 (no boundary of its own). -/
def testStartSeq (s : String) (alts1 : List String)
    (alts2 : List String) (bs2 be2 : Bool) : Bool :=
  (altMatchesHere (alts1.map fun w => lc w.data) none (lc s.data) false false).any
    fun pr => testGapThenAlt (alts2.map fun w => lc w.data) bs2 be2 pr.1 pr.2

/-- The year alternation 202[4-9]|203\x5cd written out. -/
def yearWords : List String :=
  ["2024", "2025", "2026", "2027", "2028", "2029",
   "2030", "2031", "2032", "2033", "2034", "2035", "2036", "2037", "2038", "2039"]

/-- WebSearchService.searchTriggers of utils/webSearch.ts, pattern by
pattern in source order, and the .some over them; shouldSearch computes
an isQuestion flag but returns only the trigger match. -/
def shouldSearch (s : String) : Bool :=
  testSeq s ["what"] false false ["happening", "going on", "news", "latest"] false false ||
  testAlt s ["current", "today", "yesterday", "now", "latest", "recent", "this week",
    "last night"] true true ||
  testAlt s ["news about", "update on", "announcement", "breaking"] true true ||
  testAlt s ["who won", "who is winning", "score", "game", "match", "championship",
    "finals", "playoff"] true true ||
  testSeq s ["nba", "nfl", "mlb", "nhl", "soccer", "football", "basketball", "baseball",
    "hockey"] true true ["game", "score", "match", "result", "winner"] true true ||
  testSeq s ["game", "match", "championship", "tournament", "finals"] true false
    ["tonight", "today", "yesterday", "last night"] true true ||
  testAlt s ["weather", "temperature", "forecast", "rain", "snow", "storm"] true true ||
  testAlt s ["stock", "price", "market", "crypto", "bitcoin", "dow", "nasdaq", "s&p"]
    true true ||
  testAlt s ["when is", "when does", "when will", "what time"] true true ||
  testAlt s ["how much is", "what is the price", "cost of"] true true ||
  testSeq s ["president", "prime minister", "leader", "government"] true true
    ["current", "now", "today"] true true ||
  testSeq s ["population", "statistics", "data", "numbers"] true false
    ["current", "latest", "2024", "2025"] true true ||
  testAlt s yearWords true true ||
  testStartSeq s ["what", "who", "where", "when", "how", "why"]
    ["today", "now", "current", "latest"] true true

/-- GeminiProvider.shouldUseGrounding of providers/gemini.ts, pattern by
pattern in source order. -/
def shouldUseGrounding (s : String) : Bool :=
  testAlt s ["current", "today", "latest", "recent", "now", "happening"] true true ||
  testAlt s ["news", "update", "announcement", "breaking"] true true ||
  testAlt s ["score", "game", "match", "win", "won", "lost", "championship", "finals"]
    true true ||
  testAlt s ["nba", "nfl", "mlb", "nhl", "sports"] true true ||
  testAlt s ["weather", "temperature", "forecast"] true true ||
  testAlt s ["stock", "price", "market", "crypto", "bitcoin"] true true ||
  testSeq s ["who is", "what is", "when is", "where is"] true true
    ["president", "leader", "champion", "winner"] true true ||
  testAlt s ["when", "what time", "schedule"] true true ||
  testAlt s yearWords true true

/-- The opening curly brace character. -/
def obChar : Char := Char.ofNat 123

/-- The closing curly brace character. -/
def cbChar : Char := Char.ofNat 125

/-- Whitespace characters the regex class \s covers for the ASCII
inputs at hand. -/
def jsSpace (c : Char) : Bool :=
  c = ' ' || c = '\t' || c = '\n' || c = '\r' || c = Char.ofNat 11 || c = Char.ofNat 12

/-- Match the placeholder regex for variable v (two opening braces,
optional whitespace, the variable name, optional whitespace, two closing
braces) at the head of the text; returns the remainder after the match. -/
def matchPH (v : List Char) : List Char → Option (List Char)
  | a :: b :: rest =>
    if a = obChar && b = obChar then
      match chopPrefix v (rest.dropWhile jsSpace) with
      | some r2 =>
        match r2.dropWhile jsSpace with
        | c :: d :: r => if c = cbChar && d = cbChar then some r else none
        | _ => none
      | none => none
    else none
  | _ => none

/-- chopPrefix never lengthens the text. -/
theorem chopPrefix_length_le (w : List Char) :
    ∀ l r, chopPrefix w l = some r → r.length ≤ l.length := by
  induction w with
  | nil => intro l r h; simp [chopPrefix] at h; simp [h]
  | cons c cs ih =>
    intro l r h
    cases l with
    | nil => simp [chopPrefix] at h
    | cons d ds =>
      simp only [chopPrefix] at h
      split at h
      · exact Nat.le_trans (ih ds r h) (by simp)
      · exact absurd h (by simp)

/-- dropWhile never lengthens the text. -/
theorem dropWhile_length_le (p : Char → Bool) (l : List Char) :
    (l.dropWhile p).length ≤ l.length := by
  induction l with
  | nil => simp [List.dropWhile]
  | cons c cs ih =>
    rw [List.dropWhile]
    split
    · exact Nat.le_trans ih (by simp)
    · simp

/-- A placeholder match strictly shortens the text. -/
theorem matchPH_lt (v : List Char) :
    ∀ l r, matchPH v l = some r → r.length < l.length := by
  intro l r h
  match l with
  | [] => simp [matchPH] at h
  | [_] => simp [matchPH] at h
  | a :: b :: rest =>
    simp only [matchPH] at h
    split at h
    · split at h
      next r2 h2 =>
        split at h
        next c d r4 h3 =>
          split at h
          · cases h
            have hA : r2.length ≤ (rest.dropWhile jsSpace).length :=
              chopPrefix_length_le v _ r2 h2
            have hB : (rest.dropWhile jsSpace).length ≤ rest.length :=
              dropWhile_length_le jsSpace rest
            have hD : (r2.dropWhile jsSpace).length = r.length + 2 := by
              rw [h3]; simp
            have hC : (r2.dropWhile jsSpace).length ≤ r2.length :=
              dropWhile_length_le jsSpace r2
            simp only [List.length_cons]
            omega
          · exact absurd h (by simp)
        next h3 => exact absurd h (by simp)
      next h2 => exact absurd h (by simp)
    · exact absurd h (by simp)

/-- One pass of rendered.replace(placeholder, value) with a global
regex, driven by a step fuel so that the scan reduces by computation:
scan left to right, splice the value in for each placeholder
occurrence, and continue after it without rescanning the value. Every
step consumes at least one character of the text (matchPH_lt), so fuel
equal to the text length never runs out. -/
def replaceVarFuel (v value : List Char) : Nat → List Char → List Char
  | 0, l => l
  | fuel + 1, l =>
    match matchPH v l with
    | some r => value ++ replaceVarFuel v value fuel r
    | none =>
      match l with
      | [] => []
      | c :: cs => c :: replaceVarFuel v value fuel cs

/-- The replace scan with adequate fuel. -/
def replaceVarAux (v value l : List Char) : List Char :=
  replaceVarFuel v value l.length l

/-- PromptTemplate of types/ai.ts. -/
structure PromptTemplate where
  id : String
  name : String
  template : String
  «variables» : List String
  description : Option String

/-- Record access variables[v] on the bindings record. -/
def jsLookup (vars : List (String × String)) (v : String) : Option String :=
  vars.lookup v

/-- The substituted value: variables[variable] with the JS or-empty
fallback, so a missing binding and an empty binding both render as the
empty string. -/
def varValue (vars : List (String × String)) (v : String) : String :=
  match jsLookup vars v with
  | some s => if s = "" then "" else s
  | none => ""

/-- PromptManager.renderTemplate on a resolved template: fold the
declared variables in order, replacing every placeholder occurrence of
each with its (possibly empty) value. -/
def renderTemplateBody (t : PromptTemplate) (vars : List (String × String)) : String :=
  t.«variables».foldl
    (fun acc v => String.mk (replaceVarAux v.data (varValue vars v).data acc.data))
    t.template

/-- Map.get on the template registry. -/
def getTemplate (ts : List PromptTemplate) (id : String) : Option PromptTemplate :=
  ts.find? fun t => t.id = id

/-- PromptManager.renderTemplate: an unknown template id throws; a known
one renders with silent empty substitution for unbound variables. -/
def renderTemplate (ts : List PromptTemplate) (id : String)
    (vars : List (String × String)) : Except String String :=
  match getTemplate ts id with
  | none => Except.error ("Template " ++ id ++ " not found")
  | some t => Except.ok (renderTemplateBody t vars)

/-- PromptManager.validateVariables: valid iff no declared variable has
a falsy (missing or empty) binding; returns the missing list. -/
def validateVariables (ts : List PromptTemplate) (id : String)
    (vars : List (String × String)) : Bool × List String :=
  match getTemplate ts id with
  | none => (false, [])
  | some t =>
    let missing := t.«variables».filter fun v =>
      match jsLookup vars v with
      | some s => s = ""
      | none => true
    (missing.isEmpty, missing)

/-- The five default templates PromptManager.loadDefaultTemplates
registers, with their exact template text. -/
def defaultTemplates : List PromptTemplate :=
  [{ id := "default"
     name := "Default Assistant"
     template := "You are pup.ai, a helpful and friendly AI assistant in Slack. \nYou\x27re responding to \x7b\x7buserName\x7d\x7d in \x7b\x7bchannelType\x7d\x7d.\nBe concise but friendly. Use appropriate emoji occasionally.\nCurrent context: \x7b\x7bcontext\x7d\x7d\n\nUser message: \x7b\x7bmessage\x7d\x7d"
     «variables» := ["userName", "channelType", "context", "message"]
     description := some "Default template for general assistance" },
   { id := "direct_message"
     name := "Direct Message"
     template := "You are pup.ai, having a private conversation with \x7b\x7buserName\x7d\x7d.\nBe friendly and personable. Remember this is a one-on-one chat.\nPrevious context: \x7b\x7bcontext\x7d\x7d\n\n\x7b\x7buserName\x7d\x7d says: \x7b\x7bmessage\x7d\x7d"
     «variables» := ["userName", "context", "message"]
     description := some "Template for direct messages" },
   { id := "technical"
     name := "Technical Assistant"
     template := "You are pup.ai, a technical assistant helping \x7b\x7buserName\x7d\x7d with programming and technical questions.\nProvide clear, accurate technical information with code examples when appropriate.\nUse markdown formatting for code blocks.\nContext: \x7b\x7bcontext\x7d\x7d\n\nTechnical question: \x7b\x7bmessage\x7d\x7d"
     «variables» := ["userName", "context", "message"]
     description := some "Template for technical assistance" },
   { id := "summary"
     name := "Conversation Summary"
     template := "Summarize the following Slack conversation in a clear, concise manner.\nFocus on key points, decisions made, and action items.\nChannel: \x7b\x7bchannelName\x7d\x7d\n\nConversation:\n\x7b\x7bconversation\x7d\x7d"
     «variables» := ["channelName", "conversation"]
     description := some "Template for summarizing conversations" },
   { id := "code_review"
     name := "Code Review"
     template := "Review the following code snippet and provide constructive feedback.\nFocus on: code quality, potential bugs, performance, and best practices.\nLanguage: \x7b\x7blanguage\x7d\x7d\n\nCode:\n\x7b\x7bcode\x7d\x7d\n\nSpecific concerns: \x7b\x7bconcerns\x7d\x7d"
     «variables» := ["language", "code", "concerns"]
     description := some "Template for code review assistance" }]

/-- Message object inside an upstream chat completion choice: content
may be null, tool_calls may be absent; tool call payloads beyond their
presence do not influence the value the adapter returns, so they are
modelled as unit markers. -/
structure UpstreamMessage where
  content : Option String
  toolCalls : Option (List Unit)
deriving DecidableEq

/-- One choice of an upstream completion. -/
structure UpstreamChoice where
  message : Option UpstreamMessage
deriving DecidableEq

/-- Upstream token usage block. -/
structure UpstreamUsage where
  promptTokens : Nat
  completionTokens : Nat
  totalTokens : Nat
deriving DecidableEq

/-- An upstream chat completion payload as the adapter sees it: choices
may be missing entirely (the malformed case), and the object / message
fields cover the error-shaped success payload the latest revision
checks for. -/
structure UpstreamCompletion where
  objectField : Option String
  errMessage : Option String
  choices : Option (List UpstreamChoice)
  model : String
  usage : Option UpstreamUsage
deriving DecidableEq

/-- A rejected upstream call: the vendor error with its optional HTTP
status and message. -/
structure HttpErr where
  status : Option Int
  message : Option String
deriving DecidableEq

/-- What a statement inside the try block can throw: an upstream
(await) rejection, a JS TypeError from unchecked property access, or an
Error the adapter itself constructs. -/
inductive JsThrow where
  | http (e : HttpErr)
  | typeError (msg : String)
  | jsError (msg : String)
deriving DecidableEq

/-- The TypeError message for indexing a missing choices array, as
thrown by completion.choices[0] when choices is undefined. -/
def typeErrorReading0 : String := "Cannot read properties of undefined (reading \x270\x27)"

/-- Filler text the adapter substitutes for an empty or missing message
content on the direct (no tool call) path. -/
def fillerNoContent : String := "I need a moment to process that request. Please try again."

/-- Filler text the adapter substitutes for an empty or missing message
content on the follow-up (after tool calls) path. -/
def fillerToolFollowUp : String :=
  "I found the information but had trouble formatting my response. Please try asking again."

/-- Map an upstream usage block onto the response usage estimate. -/
def mapUsage (u : Option UpstreamUsage) : Option Usage :=
  u.map fun x =>
    { promptTokens := x.promptTokens
      completionTokens := x.completionTokens
      totalTokens := x.totalTokens }

/-- message.tool_calls && tool_calls.length > 0. -/
def hasToolCalls (m : Option UpstreamMessage) : Bool :=
  match m.bind fun x => x.toolCalls with
  | some l => !l.isEmpty
  | none => false

/-- The JS expression completion.choices[0]?.message: throws a TypeError
when choices is undefined; otherwise optional-chains through the first
choice. -/
def choicesFirstMessage (c : UpstreamCompletion) : Except JsThrow (Option UpstreamMessage) :=
  match c.choices with
  | none => Except.error (JsThrow.typeError typeErrorReading0)
  | some l => Except.ok ((l.head?).bind fun ch => ch.message)

/-- Try-block body of the first OpenAIProvider.generateResponse revision
(providers/openai.ts as cited) for a non-Lambda configuration (the
manual-search fallback branch is guarded by baseURL.includes(lambda.ai)
and is dead when no baseURL is configured): first upstream call, the
unchecked choices[0] access, the tool-call follow-up when tool calls
are present, and the or-filler content extraction. -/
def rev1TryBody (now : Int) (first second : Except HttpErr UpstreamCompletion) :
    Except JsThrow AIResponse := do
  let completion ← first.mapError JsThrow.http
  let message ← choicesFirstMessage completion
  if hasToolCalls message then do
    let fu ← second.mapError JsThrow.http
    let fmessage ← choicesFirstMessage fu
    pure
      { content := jsOr (fmessage.bind fun m => m.content) fillerToolFollowUp
        model := fu.model
        provider := "openai"
        usage := mapUsage fu.usage
        cached := none
        timestamp := now }
  else
    pure
      { content := jsOr (message.bind fun m => m.content) fillerNoContent
        model := completion.model
        provider := "openai"
        usage := mapUsage completion.usage
        cached := none
        timestamp := now }

/-- The status / message of whatever the try block threw, as the catch
block reads error.status and error.message. -/
def thrownStatus (e : JsThrow) : Option Int :=
  match e with
  | JsThrow.http he => he.status
  | JsThrow.typeError _ => none
  | JsThrow.jsError _ => none

/-- error.message of a thrown value. -/
def thrownMessage (e : JsThrow) : Option String :=
  match e with
  | JsThrow.http he => he.message
  | JsThrow.typeError m => some m
  | JsThrow.jsError m => some m

/-- Catch block of the first revision: translate 429, 401, 503 and the
tool_choice 400 to fixed messages, and wrap everything else in the
catch-all OpenAI API error string. -/
def rev1Catch (e : JsThrow) : String :=
  if thrownStatus e = some 429 then "Rate limit exceeded. Please try again later."
  else if thrownStatus e = some 401 then "Invalid API key for OpenAI"
  else if thrownStatus e = some 503 then "OpenAI service is temporarily unavailable"
  else if thrownStatus e = some 400 &&
      containsStr (jsOr (thrownMessage e) "") "tool_choice" then
    "Tool choice not supported by this model"
  else "OpenAI API error: " ++ jsOr (thrownMessage e) "Unknown error"

/-- The first OpenAIProvider.generateResponse revision as a whole:
either the try-block value, or the translated error the catch block
rethrows. -/
def rev1GenerateResponse (now : Int) (first second : Except HttpErr UpstreamCompletion) :
    Except String AIResponse :=
  match rev1TryBody now first second with
  | Except.ok r => Except.ok r
  | Except.error e => Except.error (rev1Catch e)

/-- Typed malformed-response errors of the latest revision in the same
file: the defensive shape checks throw these messages. -/
def malformedNoChoicesMsg : String := "Invalid response from API - no choices returned"

/-- Malformed-response message of the follow-up check in the latest revision. -/
def malformedFollowUpMsg : String := "Invalid follow-up response from API"

/-- Try-block body of the latest OpenAIProvider.generateResponse
revision: it first rejects an error-shaped success payload, then
rejects a missing or empty choices array, before indexing. -/
def rev3TryBody (now : Int) (first second : Except HttpErr UpstreamCompletion) :
    Except JsThrow AIResponse := do
  let completion ← first.mapError JsThrow.http
  if completion.objectField = some "error" then
    throw (JsThrow.jsError ("API error: " ++ jsOr completion.errMessage "Unknown API error"))
  if completion.choices = none || completion.choices = some [] then
    throw (JsThrow.jsError malformedNoChoicesMsg)
  let message ← choicesFirstMessage completion
  if hasToolCalls message then do
    let fu ← second.mapError JsThrow.http
    if fu.choices = none || fu.choices = some [] then
      throw (JsThrow.jsError malformedFollowUpMsg)
    let fmessage ← choicesFirstMessage fu
    pure
      { content := jsOr (fmessage.bind fun m => m.content) fillerToolFollowUp
        model := fu.model
        provider := "openai"
        usage := mapUsage fu.usage
        cached := none
        timestamp := now }
  else
    pure
      { content := jsOr (message.bind fun m => m.content) fillerNoContent
        model := completion.model
        provider := "openai"
        usage := mapUsage completion.usage
        cached := none
        timestamp := now }

/-- Catch block of the latest revision: 429, 401 and 503 keep their
fixed messages, everything else (including the defensive
throws) is wrapped in the generic API error string. -/
def rev3Catch (e : JsThrow) : String :=
  if thrownStatus e = some 429 then "Rate limit exceeded. Please try again later."
  else if thrownStatus e = some 401 then "Invalid API key for OpenAI"
  else if thrownStatus e = some 503 then "OpenAI service is temporarily unavailable"
  else "API error: " ++ jsOr (thrownMessage e) "Unknown error"

/-- The latest OpenAIProvider.generateResponse revision as a whole. -/
def rev3GenerateResponse (now : Int) (first second : Except HttpErr UpstreamCompletion) :
    Except String AIResponse :=
  match rev3TryBody now first second with
  | Except.ok r => Except.ok r
  | Except.error e => Except.error (rev3Catch e)

/-- A registered provider as the orchestrator sees it: its name (the
registry key), its availability flag and the outcome its
generateResponse settles to (deterministic per call in this model). -/
structure MProvider where
  name : String
  available : Bool
  behavior : Except String AIResponse

/-- AIService.getFallbackProvider: the first registered provider that
is not the active one and is available (providers are keyed by unique
names, so name inequality models object inequality). -/
def getFallbackProvider (providers : List MProvider) (activeName : String) :
    Option MProvider :=
  providers.find? fun p => p.name ≠ activeName && p.available

/-- Outcome of an AIService.generateResponse run bounded by fuel:
a returned response, a propagated error, or fuel exhaustion (the run
was still retrying when the fuel ran out). -/
inductive GenOutcome where
  | ok (r : AIResponse)
  | err (e : String)
  | stillRetrying
deriving DecidableEq

/-- The failure path of AIService.generateResponse (cache and context
bookkeeping elided: nothing is cached before a success, so a retry
re-enters the provider call): invoke the active provider; on failure
switch the active provider to the first fallback and recurse into
generateResponse, or rethrow when no fallback exists. Fuel counts
provider invocations; the source has no such bound. -/
def generateWithFuel (providers : List MProvider) : Nat → MProvider → GenOutcome
  | 0, _ => GenOutcome.stillRetrying
  | fuel + 1, active =>
    match active.behavior with
    | Except.ok r => GenOutcome.ok r
    | Except.error e =>
      match getFallbackProvider providers active.name with
      | some fb => generateWithFuel providers fuel fb
      | none => GenOutcome.err e

/-- A failing openai registration: available, every completion call
rejects. -/
def failingOpenAI : MProvider :=
  { name := "openai"
    available := true
    behavior := Except.error "OpenAI service is temporarily unavailable" }

/-- A failing anthropic registration: available, every completion call
rejects. -/
def failingAnthropic : MProvider :=
  { name := "anthropic"
    available := true
    behavior := Except.error "Anthropic API error" }

/-- The two-provider registry with both providers failing. -/
def twoFailingProviders : List MProvider := [failingOpenAI, failingAnthropic]

/-- One failover step from the failing openai provider lands on the
failing anthropic provider. -/
theorem genStep_openai (n : Nat) :
    generateWithFuel twoFailingProviders (n + 1) failingOpenAI =
      generateWithFuel twoFailingProviders n failingAnthropic := rfl

/-- One failover step from the failing anthropic provider lands back on
the failing openai provider. -/
theorem genStep_anthropic (n : Nat) :
    generateWithFuel twoFailingProviders (n + 1) failingAnthropic =
      generateWithFuel twoFailingProviders n failingOpenAI := rfl

/-- C1: with two available registered providers that both fail every
completion, AIService.generateResponse keeps swapping the active
provider and recursing, alternating between the two failing providers:
however many provider invocations one allows, the run is still
retrying, so the failure never propagates to the caller and the retry
chain is not bounded by one retry. This contradicts the claimed
one-retry-then-propagate failover. -/
theorem C1_failover_recursion_never_propagates :
    ∀ fuel : Nat,
      generateWithFuel twoFailingProviders fuel failingOpenAI = GenOutcome.stillRetrying ∧
      generateWithFuel twoFailingProviders fuel failingAnthropic = GenOutcome.stillRetrying := by
  intro fuel
  induction fuel with
  | zero => exact ⟨rfl, rfl⟩
  | succ n ih =>
    refine ⟨?_, ?_⟩
    · rw [genStep_openai]
      exact ih.2
    · rw [genStep_anthropic]
      exact ih.1

/-- A successful completion whose message carries no content and no
tool calls. -/
def emptyContentCompletion : UpstreamCompletion :=
  { objectField := none
    errMessage := none
    choices := some [{ message := some { content := none, toolCalls := none } }]
    model := "gpt-4o-mini"
    usage := none }

/-- An upstream completion payload with no choices field at all. -/
def noChoicesCompletion : UpstreamCompletion :=
  { objectField := none
    errMessage := none
    choices := none
    model := "gpt-4o-mini"
    usage := none }

/-- A second-call outcome that the paths under study never reach. -/
def unusedSecondCall : Except HttpErr UpstreamCompletion :=
  Except.error { status := none, message := none }

/-- C2 counterexample: when the upstream success carries a null message
content and no tool calls, generateResponse returns a success whose
text is the fixed filler sentence invented by the pipeline, not model
output and not a typed error — so a generate call can return a
silently-fabricated success. -/
theorem C2_cex_filler_success :
    rev1GenerateResponse 0 (Except.ok emptyContentCompletion) unusedSecondCall =
      Except.ok
        { content := fillerNoContent
          model := "gpt-4o-mini"
          provider := "openai"
          usage := none
          cached := none
          timestamp := 0 } ∧
    fillerNoContent ≠ "" := ⟨rfl, by decide⟩

/-- C2 as amended: every run of the adapter either returns a response
or throws a translated error, but whenever the message content of the
first completion is missing or empty and there are no tool calls, the
returned success carries the fixed filler text in place of model
output. -/
theorem C2_filler_on_empty_content (now : Int) (mdl : String) (u : Option UpstreamUsage)
    (c : Option String) (sec : Except HttpErr UpstreamCompletion)
    (hc : c = none ∨ c = some "") :
    rev1GenerateResponse now
      (Except.ok
        { objectField := none
          errMessage := none
          choices := some [{ message := some { content := c, toolCalls := none } }]
          model := mdl
          usage := u }) sec =
      Except.ok
        { content := fillerNoContent
          model := mdl
          provider := "openai"
          usage := mapUsage u
          cached := none
          timestamp := now } := by
  rcases hc with h | h <;> subst h <;> rfl

/-- Witness for the amended C2 statement at a concrete input. -/
theorem C2_filler_witness :
    rev1GenerateResponse 0
      (Except.ok
        { objectField := none
          errMessage := none
          choices := some [{ message := some { content := none, toolCalls := none } }]
          model := "gpt-4o-mini"
          usage := none }) unusedSecondCall =
      Except.ok
        { content := fillerNoContent
          model := "gpt-4o-mini"
          provider := "openai"
          usage := mapUsage none
          cached := none
          timestamp := 0 } :=
  C2_filler_on_empty_content 0 "gpt-4o-mini" none none unusedSecondCall (Or.inl rfl)

/-- C9: on an upstream payload with no choices array, the cited adapter
revision indexes completion.choices[0] without validating the shape;
the resulting TypeError is caught by the catch block of the adapter and
rethrown as the generic catch-all OpenAI API error string — not as the
typed malformed-response error that the latest revision of the same
file raises after its explicit shape check. -/
theorem C9_missing_choices_is_catchall_not_typed :
    rev1GenerateResponse 0 (Except.ok noChoicesCompletion) unusedSecondCall =
      Except.error ("OpenAI API error: " ++ typeErrorReading0) ∧
    rev3GenerateResponse 0 (Except.ok noChoicesCompletion) unusedSecondCall =
      Except.error ("API error: " ++ malformedNoChoicesMsg) ∧
    ("OpenAI API error: " ++ typeErrorReading0) ≠ ("API error: " ++ malformedNoChoicesMsg) :=
  ⟨rfl, rfl, by decide⟩

/-- C4: under the default configuration (no custom skip predicate), a
prompt matching the default skip patterns is never read from or written
to the cache: get is a miss and set leaves every store state unchanged,
so such a prompt is never served from cache even right after an
identical generation was stored. -/
theorem C4_skip_predicate_bypasses_cache (o : CacheOptions) (st : CacheState)
    (prompt : String) (ctx : AIContext) (resp : AIResponse)
    (hdefault : o.skipCache = none) (hskip : defaultSkip prompt = true) :
    cacheGet o st prompt ctx = none ∧ cacheSet o st prompt ctx resp = st := by
  have h : shouldSkipCache o prompt ctx = true := by
    simp [shouldSkipCache, hdefault, hskip]
  exact ⟨by simp [cacheGet, h], by simp [cacheSet, h]⟩

/-- Cache options with the default skip predicate. -/
def defaultCacheOptions : CacheOptions :=
  { ttl := 300000, maxSize := 100, skipCache := none }

/-- A concrete conversation context for cache evaluation. -/
def plainContext : AIContext :=
  { messages := []
    channel := "C123"
    threadTs := none
    userId := "U123"
    isDirectMessage := false
    metadata := none }

/-- A concrete stored response. -/
def storedResponse : AIResponse :=
  { content := "It is sunny."
    model := "gpt-4o-mini"
    provider := "openai"
    usage := none
    cached := none
    timestamp := 1 }

/-- Witness for C4: the weather prompt matches the skip patterns, so
even a store seeded with exactly this fingerprint yields a miss and the
write is dropped. -/
theorem C4_skip_witness :
    cacheGet defaultCacheOptions
        [(generateCacheKey "what\x27s the weather right now" plainContext, storedResponse)]
        "what\x27s the weather right now" plainContext = none ∧
    cacheSet defaultCacheOptions
        [(generateCacheKey "what\x27s the weather right now" plainContext, storedResponse)]
        "what\x27s the weather right now" plainContext storedResponse =
      [(generateCacheKey "what\x27s the weather right now" plainContext, storedResponse)] :=
  C4_skip_predicate_bypasses_cache defaultCacheOptions
    [(generateCacheKey "what\x27s the weather right now" plainContext, storedResponse)]
    "what\x27s the weather right now" plainContext storedResponse rfl (by decide)

/-- C6: the grounding classifiers on the four literal fixtures: both the
web-search trigger classifier and the Gemini grounding classifier return
true on the NBA-finals and weather prompts and false on the
capital-of-France and explain-recursion prompts. -/
theorem C6_grounding_gate_fixtures :
    shouldSearch "who won the NBA finals last night" = true ∧
    shouldSearch "what is the capital of France" = false ∧
    shouldSearch "what\x27s the weather in Austin today" = true ∧
    shouldSearch "explain recursion" = false ∧
    shouldUseGrounding "who won the NBA finals last night" = true ∧
    shouldUseGrounding "what is the capital of France" = false ∧
    shouldUseGrounding "what\x27s the weather in Austin today" = true ∧
    shouldUseGrounding "explain recursion" = false := by
  refine ⟨?_, ?_, ?_, ?_, ?_, ?_, ?_, ?_⟩ <;> decide

set_option maxRecDepth 4096

/-- Decidable equality for Except values with decidable components,
used to evaluate renderTemplate results on concrete inputs. -/
instance {α β : Type} [DecidableEq α] [DecidableEq β] : DecidableEq (Except α β) := fun x y =>
  match x, y with
  | Except.ok a, Except.ok b =>
    if h : a = b then Decidable.isTrue (by rw [h]) else Decidable.isFalse (by simp [h])
  | Except.error a, Except.error b =>
    if h : a = b then Decidable.isTrue (by rw [h]) else Decidable.isFalse (by simp [h])
  | Except.ok _, Except.error _ => Decidable.isFalse (by simp)
  | Except.error _, Except.ok _ => Decidable.isFalse (by simp)

/-- C3 counterexample: rendering the summary template with the required
variable conversation unbound does not raise an error or an
invalid-result signal — renderTemplate returns a success in which the
missing placeholder has been silently replaced by the empty string. -/
theorem C3_cex_missing_var_renders_silently :
    renderTemplate defaultTemplates "summary" [("channelName", "general")] =
      Except.ok "Summarize the following Slack conversation in a clear, concise manner.\nFocus on key points, decisions made, and action items.\nChannel: general\n\nConversation:\n" := by
  decide

/-- C3 as amended: with every required variable bound (to a non-empty
value) the summary template renders by exact substitution with no
placeholder token left; validateVariables does report a missing
required variable as invalid, listing it; but renderTemplate itself
silently substitutes the empty string for the unbound variable instead
of erroring. -/
theorem C3_render_substitution_and_validation :
    renderTemplate defaultTemplates "summary"
        [("channelName", "general"), ("conversation", "Alice: hi\nBob: hello")] =
      Except.ok "Summarize the following Slack conversation in a clear, concise manner.\nFocus on key points, decisions made, and action items.\nChannel: general\n\nConversation:\nAlice: hi\nBob: hello" ∧
    containsCI "Summarize the following Slack conversation in a clear, concise manner.\nFocus on key points, decisions made, and action items.\nChannel: general\n\nConversation:\nAlice: hi\nBob: hello" "\x7b\x7b" = false ∧
    validateVariables defaultTemplates "summary" [("channelName", "general")] =
      (false, ["conversation"]) ∧
    renderTemplate defaultTemplates "summary" [("channelName", "general")] =
      Except.ok "Summarize the following Slack conversation in a clear, concise manner.\nFocus on key points, decisions made, and action items.\nChannel: general\n\nConversation:\n" :=
  ⟨by decide, by decide, by decide, by decide⟩

/-- A 100-character content prefix shared by the two contexts below. -/
def hundredAs : String := String.mk (List.replicate 100 'a')

/-- A context whose last message content diverges after character 100. -/
def ctxTailX : AIContext :=
  { messages :=
      [{ role := Role.user, content := hundredAs ++ "X", timestamp := 1, userId := some "U1" }]
    channel := "C123"
    threadTs := none
    userId := "U1"
    isDirectMessage := false
    metadata := none }

/-- The same context except the last message ends in Y instead of X. -/
def ctxTailY : AIContext :=
  { messages :=
      [{ role := Role.user, content := hundredAs ++ "Y", timestamp := 1, userId := some "U1" }]
    channel := "C123"
    threadTs := none
    userId := "U1"
    isDirectMessage := false
    metadata := none }

/-- C7 counterexample: the two conversational states differ in their
last three messages, yet the fingerprints coincide, because the key
records only the first 100 characters of each recent message; a
response cached for one state is served for the other, so the two calls
are conflated into one cache entry. -/
theorem C7_cex_truncated_fingerprint_conflates :
    generateCacheKey "hi" ctxTailX = generateCacheKey "hi" ctxTailY ∧
    jsSliceLast 3 ctxTailX.messages ≠ jsSliceLast 3 ctxTailY.messages ∧
    cacheGet defaultCacheOptions [(generateCacheKey "hi" ctxTailX, storedResponse)]
        "hi" ctxTailY = some { storedResponse with cached := some true } := by
  refine ⟨?_, ?_, ?_⟩ <;> decide

/-- C7 as amended: the fingerprint is deterministic and depends on
exactly the prompt, the channel id, the DM flag, the last three
messages projected to role and the first 100 characters of content,
and the metadata snapshot — two calls get the same fingerprint exactly
when they agree on those components, so states differing within that
projection are kept apart while states differing only beyond the
100-character truncation (or in other message fields) are conflated. -/
theorem C7_fingerprint_characterization (p1 p2 : String) (c1 c2 : AIContext) :
    generateCacheKey p1 c1 = generateCacheKey p2 c2 ↔
      (p1 = p2 ∧ c1.channel = c2.channel ∧
        c1.isDirectMessage = c2.isDirectMessage ∧
        (jsSliceLast 3 c1.messages).map
            (fun m => (m.role, String.mk (m.content.data.take 100))) =
          (jsSliceLast 3 c2.messages).map
            (fun m => (m.role, String.mk (m.content.data.take 100))) ∧
        c1.metadata = c2.metadata) := by
  simp [generateCacheKey, CacheKeyData.mk.injEq]

/-- Cost of a cons in terms of its parts. -/
theorem estCost_cons (m : ContextMessage) (l : List ContextMessage) :
    estCost (m :: l) = estTokens m + estCost l := by
  simp [estCost]

/-- Reversal preserves the estimated cost. -/
theorem estCost_reverse (l : List ContextMessage) : estCost l.reverse = estCost l := by
  simp only [estCost, List.map_reverse]
  exact List.sum_reverse _

/-- The token-keep loop returns a prefix of its input. -/
theorem tokenKeep_prefix (B : Nat) : ∀ (t : Nat) (l : List ContextMessage),
    tokenKeep B t l <+: l := by
  intro t l
  induction l generalizing t with
  | nil => simp [tokenKeep]
  | cons m rest ih =>
    rw [tokenKeep]
    split
    · exact List.cons_prefix_cons.mpr ⟨rfl, ih _⟩
    · exact List.nil_prefix

/-- The token-keep loop never exceeds the budget. -/
theorem tokenKeep_cost (B : Nat) : ∀ (t : Nat) (l : List ContextMessage), t ≤ B →
    t + estCost (tokenKeep B t l) ≤ B := by
  intro t l
  induction l generalizing t with
  | nil => intro h; simpa [tokenKeep, estCost] using h
  | cons m rest ih =>
    intro h
    rw [tokenKeep]
    split
    next hfit =>
      have h2 := ih (t + estTokens m) hfit
      rw [estCost_cons]
      omega
    next => simpa [estCost] using h

/-- The token-keep loop keeps a longest prefix within the budget: any
prefix of the input whose cost fits is no longer than the kept one. -/
theorem tokenKeep_maximal (B : Nat) : ∀ (t : Nat) (l p : List ContextMessage),
    p <+: l → t + estCost p ≤ B → p.length ≤ (tokenKeep B t l).length := by
  intro t l
  induction l generalizing t with
  | nil =>
    intro p hp _
    rw [List.prefix_nil.mp hp]
    simp
  | cons m rest ih =>
    intro p hp hcost
    cases p with
    | nil => simp
    | cons q qs =>
      obtain ⟨hq, hqs⟩ := List.cons_prefix_cons.mp hp
      subst hq
      rw [estCost_cons] at hcost
      rw [tokenKeep, if_pos (by omega)]
      simp only [List.length_cons, Nat.succ_le_succ_iff]
      exact ih (t + estTokens q) qs hqs (by omega)

/-- trimByTokenCount keeps a tail of the original list in original
order. -/
theorem trimByTokenCount_suffix (B : Nat) (ms : List ContextMessage) :
    trimByTokenCount B ms <:+ ms := by
  have h : (tokenKeep B 0 ms.reverse).reverse <:+ ms.reverse.reverse := by
    rw [List.reverse_suffix]
    exact tokenKeep_prefix B 0 ms.reverse
  simpa [trimByTokenCount] using h

/-- trimByTokenCount stays within the budget. -/
theorem trimByTokenCount_cost (B : Nat) (ms : List ContextMessage) :
    estCost (trimByTokenCount B ms) ≤ B := by
  have h := tokenKeep_cost B 0 ms.reverse (Nat.zero_le B)
  simpa [trimByTokenCount, estCost_reverse] using h

/-- trimByTokenCount keeps the longest tail within the budget: it stops
including exactly when the next older message would exceed it. -/
theorem trimByTokenCount_maximal (B : Nat) (ms s : List ContextMessage)
    (hs : s <:+ ms) (hc : estCost s ≤ B) :
    s.length ≤ (trimByTokenCount B ms).length := by
  have hp : s.reverse <+: ms.reverse := List.reverse_prefix.mpr hs
  have h := tokenKeep_maximal B 0 ms.reverse s.reverse hp
    (by simpa [estCost_reverse] using hc)
  simpa [trimByTokenCount] using h

/-- jsSliceLast returns a suffix. -/
theorem jsSliceLast_suffix (k : Nat) (l : List α) : jsSliceLast k l <:+ l := by
  unfold jsSliceLast
  split
  · exact List.suffix_refl l
  · exact List.drop_suffix _ l

/-- jsSliceLast with a positive count keeps at most that many
elements. -/
theorem jsSliceLast_length_le {k : Nat} (hk : k ≠ 0) (l : List α) :
    (jsSliceLast k l).length ≤ k := by
  unfold jsSliceLast
  rw [if_neg hk]
  rw [List.length_drop]
  omega

/-- Every element of jsSliceLast comes from the original list. -/
theorem jsSliceLast_subset (k : Nat) (l : List α) {x : α}
    (hx : x ∈ jsSliceLast k l) : x ∈ l :=
  (jsSliceLast_suffix k l).subset hx

/-- The count-trim step returns a suffix. -/
theorem trimToMax_suffix (k : Nat) (ms : List ContextMessage) :
    trimToMax k ms <:+ ms := by
  unfold trimToMax
  split
  · exact jsSliceLast_suffix k ms
  · exact List.suffix_refl ms

/-- Under a positive configured maximum, the count-trim step keeps
exactly the most recent min(length, k) messages. -/
theorem trimToMax_length_eq {k : Nat} (hk : 0 < k) (ms : List ContextMessage) :
    (trimToMax k ms).length = min ms.length k := by
  unfold trimToMax jsSliceLast
  split
  next h =>
    rw [if_neg (by omega)]
    rw [List.length_drop]
    omega
  next h =>
    omega

/-- Under a positive configured maximum, the count-trim step respects
the bound. -/
theorem trimToMax_length_le {k : Nat} (hk : 0 < k) (ms : List ContextMessage) :
    (trimToMax k ms).length ≤ k := by
  unfold trimToMax
  split
  next => exact jsSliceLast_length_le (by omega) ms
  next h => omega

/-- Count-trimming a list that ends in m yields a list that still ends
in m. -/
theorem trimToMax_append_last (k : Nat) (xs : List ContextMessage) (m : ContextMessage) :
    ∃ l, trimToMax k (xs ++ [m]) = l ++ [m] := by
  unfold trimToMax jsSliceLast
  split
  · split
    · exact ⟨xs, rfl⟩
    next hk =>
      refine ⟨xs.drop ((xs ++ [m]).length - k), ?_⟩
      rw [List.drop_append_of_le_length]
      simp only [List.length_append, List.length_singleton]
      omega
  · exact ⟨xs, rfl⟩

/-- trimContext with no configured token budget is the count trim. -/
theorem trimContext_of_none {cfg : ContextManagerConfig} (h : cfg.maxTokens = none)
    (ms : List ContextMessage) : trimContext cfg ms = trimToMax cfg.maxMessages ms := by
  unfold trimContext
  rw [h]

/-- trimContext with a zero token budget (JS-falsy) is the count trim. -/
theorem trimContext_of_zero {cfg : ContextManagerConfig} (h : cfg.maxTokens = some 0)
    (ms : List ContextMessage) : trimContext cfg ms = trimToMax cfg.maxMessages ms := by
  unfold trimContext
  rw [h]
  simp

/-- trimContext with a positive token budget composes both trims. -/
theorem trimContext_of_budget {cfg : ContextManagerConfig} {B : Nat}
    (h : cfg.maxTokens = some B) (hB : B ≠ 0) (ms : List ContextMessage) :
    trimContext cfg ms = trimByTokenCount B (trimToMax cfg.maxMessages ms) := by
  unfold trimContext
  rw [h]
  simp [hB]

/-- C5: appending a message then trimming keeps at most maxMessages
messages (for the positive maxima the service configures); the retained
messages are a tail of the appended history in original relative order;
and when a positive token budget is configured, the result additionally
fits the budget and is the longest tail of the count-trimmed history
that does — the newest-to-oldest accumulation of ceil(len/4) estimates
stops exactly when the budget would be exceeded. -/
theorem C5_context_bounding (cfg : ContextManagerConfig) (ms : List ContextMessage)
    (m : ContextMessage) (hmax : 0 < cfg.maxMessages) :
    (addMessage cfg ms m).length ≤ cfg.maxMessages ∧
    addMessage cfg ms m <:+ ms ++ [m] ∧
    (cfg.maxTokens = none →
      (addMessage cfg ms m).length = min (ms.length + 1) cfg.maxMessages) ∧
    ∀ B, cfg.maxTokens = some B → 0 < B →
      estCost (addMessage cfg ms m) ≤ B ∧
      addMessage cfg ms m <:+ trimToMax cfg.maxMessages (ms ++ [m]) ∧
      ∀ s, s <:+ trimToMax cfg.maxMessages (ms ++ [m]) → estCost s ≤ B →
        s.length ≤ (addMessage cfg ms m).length := by
  cases hmt : cfg.maxTokens with
  | none =>
    rw [addMessage, trimContext_of_none hmt]
    refine ⟨trimToMax_length_le hmax _, trimToMax_suffix _ _, ?_, ?_⟩
    · intro _
      rw [trimToMax_length_eq hmax]
      simp
    · intro B hB
      exact absurd hB (by simp)
  | some B0 =>
    by_cases hB0 : B0 = 0
    · subst hB0
      rw [addMessage, trimContext_of_zero hmt]
      refine ⟨trimToMax_length_le hmax _, trimToMax_suffix _ _, ?_, ?_⟩
      · intro h
        exact absurd h (by simp)
      · intro B hB hBpos
        rw [Option.some.injEq] at hB
        omega
    · rw [addMessage, trimContext_of_budget hmt hB0]
      have hsub : trimByTokenCount B0 (trimToMax cfg.maxMessages (ms ++ [m])) <:+
          trimToMax cfg.maxMessages (ms ++ [m]) := trimByTokenCount_suffix _ _
      refine ⟨?_, ?_, ?_, ?_⟩
      · exact Nat.le_trans hsub.length_le (trimToMax_length_le hmax _)
      · exact hsub.trans (trimToMax_suffix _ _)
      · intro h
        exact absurd h (by simp)
      · intro B hB hBpos
        rw [Option.some.injEq] at hB
        subst hB
        exact ⟨trimByTokenCount_cost _ _, hsub,
          fun s hssuf hscost => trimByTokenCount_maximal _ _ s hssuf hscost⟩

/-- A concrete trimming configuration: two messages, five-token budget. -/
def smallConfig : ContextManagerConfig := { maxMessages := 2, maxTokens := some 5 }

/-- A short concrete message. -/
def msgShort (ts : Int) (text : String) : ContextMessage :=
  { role := Role.user, content := text, timestamp := ts, userId := some "U1" }

/-- Witness for C5 at a concrete input. -/
theorem C5_context_bounding_witness :
    (addMessage smallConfig [msgShort 1 "older message", msgShort 2 "second"]
        (msgShort 3 "third")).length ≤ smallConfig.maxMessages ∧
    addMessage smallConfig [msgShort 1 "older message", msgShort 2 "second"]
        (msgShort 3 "third") <:+
      [msgShort 1 "older message", msgShort 2 "second"] ++ [msgShort 3 "third"] ∧
    (smallConfig.maxTokens = none →
      (addMessage smallConfig [msgShort 1 "older message", msgShort 2 "second"]
        (msgShort 3 "third")).length =
        min ([msgShort 1 "older message", msgShort 2 "second"].length + 1)
          smallConfig.maxMessages) ∧
    ∀ B, smallConfig.maxTokens = some B → 0 < B →
      estCost (addMessage smallConfig [msgShort 1 "older message", msgShort 2 "second"]
          (msgShort 3 "third")) ≤ B ∧
      addMessage smallConfig [msgShort 1 "older message", msgShort 2 "second"]
          (msgShort 3 "third") <:+
        trimToMax smallConfig.maxMessages
          ([msgShort 1 "older message", msgShort 2 "second"] ++ [msgShort 3 "third"]) ∧
      ∀ s, s <:+ trimToMax smallConfig.maxMessages
            ([msgShort 1 "older message", msgShort 2 "second"] ++ [msgShort 3 "third"]) →
          estCost s ≤ B →
          s.length ≤ (addMessage smallConfig [msgShort 1 "older message", msgShort 2 "second"]
            (msgShort 3 "third")).length :=
  C5_context_bounding smallConfig [msgShort 1 "older message", msgShort 2 "second"]
    (msgShort 3 "third") (by decide)

/-- C10: when the estimated token cost of the newest message alone
exceeds the configured (positive) budget, the trim after append leaves
the context with no messages at all — the just-appended message is
dropped together with everything else. -/
theorem C10_oversized_newest_empties_context (cfg : ContextManagerConfig)
    (ms : List ContextMessage) (m : ContextMessage) (B : Nat)
    (hB : cfg.maxTokens = some B) (hB0 : B ≠ 0) (hbig : B < estTokens m) :
    addMessage cfg ms m = [] := by
  rw [addMessage, trimContext_of_budget hB hB0]
  obtain ⟨l, hl⟩ := trimToMax_append_last cfg.maxMessages ms m
  rw [hl]
  unfold trimByTokenCount
  have hrev : (l ++ [m]).reverse = m :: l.reverse := by simp
  rw [hrev, tokenKeep, if_neg (by omega)]
  simp

/-- Witness for C10: a 100-character message against a 5-token budget
empties the context. -/
theorem C10_oversized_newest_witness :
    addMessage smallConfig [msgShort 1 "older message"]
      (msgShort 2 (String.mk (List.replicate 100 'a'))) = [] :=
  C10_oversized_newest_empties_context smallConfig [msgShort 1 "older message"]
    (msgShort 2 (String.mk (List.replicate 100 'a'))) 5 rfl (by decide) (by decide)

/-- C8: after an eviction sweep, a context whose most recent message is
older than maxAge is absent from the (unique-key, as a Map) context
store; and every surviving context retains no message older than maxAge
and at most 30 messages. -/
theorem C8_eviction_sweep (now maxAge : Int) (st : CMState)
    (hnd : (st.contexts.map Prod.fst).Nodup) :
    (∀ k ctx lm, (k, ctx) ∈ st.contexts → ctx.messages.getLast? = some lm →
      now - lm.timestamp > maxAge →
      ∀ ctx2, (k, ctx2) ∉ (cleanupOldContexts now maxAge st).contexts) ∧
    (∀ k ctx2, (k, ctx2) ∈ (cleanupOldContexts now maxAge st).contexts →
      (∀ mg ∈ ctx2.messages, ¬(now - mg.timestamp > maxAge)) ∧
      ctx2.messages.length ≤ 30) := by
  constructor
  · intro k ctx lm hmem hlast hold ctx2 hmem2
    simp only [cleanupOldContexts, List.mem_filterMap] at hmem2
    obtain ⟨p, hp, hclean⟩ := hmem2
    cases hcc : cleanupCtx now maxAge p.2 with
    | none => rw [hcc] at hclean; exact absurd hclean (by simp)
    | some c =>
      rw [hcc] at hclean
      simp at hclean
      obtain ⟨hk, _⟩ := hclean
      have hpeq : p = (k, ctx) :=
        List.inj_on_of_nodup_map hnd hp hmem (by simpa using hk)
      rw [hpeq] at hcc
      have hstale : ctxIsStale now maxAge ctx = true := by
        unfold ctxIsStale
        rw [hlast]
        simpa using hold
      unfold cleanupCtx at hcc
      rw [if_pos hstale] at hcc
      exact absurd hcc (by simp)
  · intro k ctx2 hmem2
    simp only [cleanupOldContexts, List.mem_filterMap] at hmem2
    obtain ⟨p, _, hclean⟩ := hmem2
    cases hcc : cleanupCtx now maxAge p.2 with
    | none => rw [hcc] at hclean; exact absurd hclean (by simp)
    | some c =>
      rw [hcc] at hclean
      simp at hclean
      obtain ⟨_, hc⟩ := hclean
      unfold cleanupCtx at hcc
      split at hcc
      · exact absurd hcc (by simp)
      · simp only [Option.some.injEq] at hcc
        have hmsgs : ctx2.messages =
            jsSliceLast 30 (p.2.messages.filter fun mg => now - mg.timestamp < maxAge) := by
          rw [← hc, ← hcc]
        constructor
        · intro mg hmg
          rw [hmsgs] at hmg
          have hmem3 := jsSliceLast_subset _ _ hmg
          have := (List.mem_filter.mp hmem3).2
          simp only [decide_eq_true_eq] at this
          omega
        · rw [hmsgs]
          exact jsSliceLast_length_le (by omega) _

/-- A stale context: its only message is far older than the sweep
threshold. -/
def staleCtx : AIContext :=
  { messages := [msgShort 100 "old news"]
    channel := "C123"
    threadTs := none
    userId := "U1"
    isDirectMessage := false
    metadata := none }

/-- A surviving context: a fresh last message, but an old first one. -/
def freshCtx : AIContext :=
  { messages := [msgShort 200 "stale line", msgShort 9000 "fresh line"]
    channel := "C123"
    threadTs := none
    userId := "U2"
    isDirectMessage := false
    metadata := none }

/-- A concrete two-context store for the eviction witness. -/
def sweepState : CMState :=
  { contexts := [("C123:U1", staleCtx), ("C123:U2", freshCtx)]
    channelContexts := [] }

/-- Witness for C8 at a concrete store: sweep at now = 10000 with
maxAge = 5000. -/
theorem C8_eviction_sweep_witness :
    (∀ k ctx lm, (k, ctx) ∈ sweepState.contexts → ctx.messages.getLast? = some lm →
      (10000 : Int) - lm.timestamp > 5000 →
      ∀ ctx2, (k, ctx2) ∉ (cleanupOldContexts 10000 5000 sweepState).contexts) ∧
    (∀ k ctx2, (k, ctx2) ∈ (cleanupOldContexts 10000 5000 sweepState).contexts →
      (∀ mg ∈ ctx2.messages, ¬((10000 : Int) - mg.timestamp > 5000)) ∧
      ctx2.messages.length ≤ 30) :=
  C8_eviction_sweep 10000 5000 sweepState (by decide)

end PupAI
